import Mathlib

/-
Verification of the core of NeRF-or-Nothing/VidGoNerf
(webserver/internal/services/ClientService.go).

The service code is shallowly embedded: every external collaborator
(user store, scene store, message queue, filesystem) is a field of an
explicit environment record, mutable external state is threaded as an
explicit `World` value, and every outbound call is logged in an event
trace so that ordering and frame ("no side effect") properties can be
stated.  Go maps are modelled as association lists in insertion order;
Go `error` values are modelled by the `GoErr` inductive; machine
integers (`int64` byte sizes, which are non-negative for regular files)
are modelled as `Nat`.
-/

set_option autoImplicit false

/-- Go `error` values occurring in `ClientService.go`: `fmt.Errorf` messages,
`fmt.Errorf` with `%w` wrapping, the sentinel `user.ErrUserNoAccess`, and
opaque errors returned by external collaborators. -/
inductive GoErr where
  | errMsg (msg : String)
  | wrap (msg : String) (inner : GoErr)
  | errUserNoAccess
  | external (msg : String)
  deriving DecidableEq, Repr

/-- The part of Go `os.FileInfo` used by the service: `Name()`. -/
structure FileInfo where
  name : String
  deriving DecidableEq, Repr

/-- `scene.Video` as used here: its stored file path. -/
structure Video where
  filePath : String
  deriving DecidableEq, Repr

/-- `scene.NerfTrainingConfig` fields set by `HandleIncomingVideo`. -/
structure NerfTrainingConfig where
  trainingMode : String
  outputTypes : List String
  saveIterations : List Int
  totalIterations : Int
  deriving DecidableEq, Repr

/-- `scene.TrainingConfig` wraps a `NerfTrainingConfig`. -/
structure TrainingConfig where
  nerfTrainingConfig : NerfTrainingConfig
  deriving DecidableEq, Repr

/-- A user document: identifier and the set of scenes the user owns. -/
structure User where
  id : String
  sceneIDs : List String
  deriving DecidableEq, Repr

/-- Modelled from the spec: `user.AddScene` ("append the new job identifier
to their authorized-job set", §4.3 step 6); the user model lives outside
the provided source file. -/
def User.addScene (u : User) (jobID : String) : User :=
  { u with sceneIDs := u.sceneIDs ++ [jobID] }

/-- Modelled from the spec: the ArtifactRegistry ("mapping of output type →
mapping of iteration label → file path", §3); `GetFilePathsForOutputType`
returns the iteration-label → path mapping for one output type.  The
`scene.Nerf` implementation lives outside the provided source file. -/
structure Nerf where
  getFilePathsForOutputType : String → List (String × String)

/-- `ResourceInfo` from `ClientService.go` (field names kept; `omitempty`
JSON serialization is not modelled). -/
structure ResourceInfo where
  Exists : Bool
  Size : Nat
  Chunks : Nat
  LastChunkSize : Nat
  deriving DecidableEq, Repr

/-- `NerfMetadata` from `ClientService.go`; the Go map
`map[string]map[string]ResourceInfo` is modelled as an association list in
insertion order. -/
structure NerfMetadata where
  Resources : List (String × List (String × ResourceInfo))
  deriving DecidableEq, Repr

/-- `common.VideoUploadRequest` fields read by `HandleIncomingVideo` (the
uploaded stream itself is modelled through `SubmitEnv`). -/
structure VideoUploadRequest where
  trainingMode : String
  outputTypes : List String
  saveIterations : List Int
  totalIterations : Int
  sceneName : String
  deriving DecidableEq, Repr

/-- Go `filepath.Ext` on a list of characters: the suffix starting at the
final dot of the final slash-separated element (empty when there is no such
dot).  Mirrors the stdlib loop that scans from the end, stopping at a path
separator. -/
def extList : List Char → List Char
  | [] => []
  | c :: rest =>
    let e := extList rest
    if e ≠ [] then e
    else if rest.contains '/' then []
    else if c = '.' then c :: rest
    else []

/-- Go `filepath.Ext` on strings. -/
def goExt (s : String) : String :=
  ⟨extList s.data⟩

/-- The stem of a file name: the name with its `goExt` extension removed
(used to state the spec's "stem of the stored video file name"). -/
def fileStem (s : String) : String :=
  ⟨s.data.take (s.data.length - (extList s.data).length)⟩

/-- Go `filepath.Join dir file` for the call site in `HandleIncomingVideo`:
for clean, separator-free components (as produced there) `Join` reduces to
concatenation with one separator. -/
def filepathJoin (dir file : String) : String :=
  dir ++ "/" ++ file

/-- Go map update: replace the binding of `k` if present, else append it. -/
def setAssoc {α : Type} : List (String × α) → String → α → List (String × α)
  | [], k, v => [(k, v)]
  | (k', v') :: rest, k, v =>
    if k' = k then (k, v) :: rest else (k', v') :: setAssoc rest k v

/-- Outbound calls made by `GetNerfMetadata` (store reads and filesystem
probes), recorded in order. -/
inductive MetaEvent where
  | userHasJobAccess (userID sceneID : String)
  | getNerf (sceneID : String)
  | getTrainingConfig (sceneID : String)
  | statPath (path : String)
  deriving DecidableEq, Repr

/-- Environment for the metadata read path: outcomes of the external
collaborator calls.  `statSize path = some n` models `os.Stat` succeeding
with byte size `n`; `none` models a stat error (missing/unreadable path). -/
structure MetaEnv where
  userHasJobAccess : String → String → Except GoErr Bool
  getNerf : String → Except GoErr Nerf
  getTrainingConfig : String → Except GoErr TrainingConfig
  statSize : String → Option Nat

/-- `verifyUserAccess` from `ClientService.go`: propagate a lookup error,
return `user.ErrUserNoAccess` when the lookup reports not authorized,
succeed otherwise. -/
def verifyUserAccess (env : MetaEnv) (userID sceneID : String) : Except GoErr Unit :=
  match env.userHasJobAccess userID sceneID with
  | .error e => .error e
  | .ok authorized => if !authorized then .error .errUserNoAccess else .ok ()

/-- The per-artifact probe inside the `GetNerfMetadata` loop (source lines
116–134): a failing `os.Stat` yields the zero `ResourceInfo` with
`Exists := false`; otherwise size, chunk count `(size + 2^20 - 1) / 2^20`,
and last-chunk size `size % 2^20` (replaced by `2^20` when the remainder
is `0`). -/
def probeFile (env : MetaEnv) (path : String) : ResourceInfo :=
  match env.statSize path with
  | none => { Exists := false, Size := 0, Chunks := 0, LastChunkSize := 0 }
  | some fileSize =>
    let chunks := (fileSize + 1024 * 1024 - 1) / (1024 * 1024)
    let rem := fileSize % (1024 * 1024)
    let lastChunkSize := if rem = 0 then 1024 * 1024 else rem
    { Exists := true, Size := fileSize, Chunks := chunks, LastChunkSize := lastChunkSize }

/-- The `for _, ot := range config.NerfTrainingConfig.OutputTypes` loop of
`GetNerfMetadata`: for each declared output type passing the filter
`outputType == "" || outputType == ot`, one entry per registered iteration
label, each probed on the filesystem.  Returns the assembled resources
list together with the stat events issued. -/
def buildResources (env : MetaEnv) (nerf : Nerf) (outputType : String) :
    List String → List (String × List (String × ResourceInfo)) × List MetaEvent
  | [] => ([], [])
  | ot :: rest =>
    let tail := buildResources env nerf outputType rest
    if outputType = "" ∨ outputType = ot then
      let filePaths := nerf.getFilePathsForOutputType ot
      ((ot, filePaths.map fun p => (p.1, probeFile env p.2)) :: tail.1,
        filePaths.map (fun p => MetaEvent.statPath p.2) ++ tail.2)
    else tail

/-- `GetNerfMetadata` from `ClientService.go`: guard, fetch the registry and
the training config, then assemble per-type per-iteration `ResourceInfo`.
The second component is the trace of outbound calls. -/
def GetNerfMetadata (env : MetaEnv) (userID sceneID outputType : String) :
    Except GoErr NerfMetadata × List MetaEvent :=
  match verifyUserAccess env userID sceneID with
  | .error e => (.error e, [.userHasJobAccess userID sceneID])
  | .ok _ =>
    match env.getNerf sceneID with
    | .error e => (.error e, [.userHasJobAccess userID sceneID, .getNerf sceneID])
    | .ok nerf =>
      match env.getTrainingConfig sceneID with
      | .error e =>
        (.error e,
          [.userHasJobAccess userID sceneID, .getNerf sceneID, .getTrainingConfig sceneID])
      | .ok config =>
        let built := buildResources env nerf outputType config.nerfTrainingConfig.outputTypes
        (.ok { Resources := built.1 },
          [.userHasJobAccess userID sceneID, .getNerf sceneID, .getTrainingConfig sceneID]
            ++ built.2)

/-- Outbound calls made by `HandleIncomingVideo` (filesystem operations,
store writes, the queue publish, and the user read/write), recorded in
order. -/
inductive Event where
  | statFile
  | mkdirAll (dir : String)
  | createFile (path : String)
  | openFile
  | copyFile (path : String)
  | setVideo (id : String) (video : Video)
  | setSceneName (id : String) (name : String)
  | setTrainingConfig (id : String) (config : TrainingConfig)
  | publishSfmJob (id : String) (video : Video) (config : TrainingConfig)
  | getUserByID (userID : String)
  | updateUser (u : User)
  deriving DecidableEq, Repr

/-- The scene store's write targets: the three independent writes of the
submission pipeline, each a Go-map update keyed by job identifier. -/
structure SceneStore where
  videos : List (String × Video)
  sceneNames : List (String × String)
  trainingConfigs : List (String × TrainingConfig)
  deriving DecidableEq, Repr

/-- Observable external state touched by the submission pipeline:
directories and files created on the filesystem (by path; byte contents
are not modelled), the scene store, the published queue messages, and the
user documents. -/
structure World where
  dirs : List String
  files : List String
  store : SceneStore
  queue : List (String × Video × TrainingConfig)
  users : List (String × User)
  deriving DecidableEq, Repr

/-- Effect of `os.MkdirAll`: create-if-absent (idempotent); the created
tree is recorded by its full path argument. -/
def World.withDir (w : World) (d : String) : World :=
  { w with dirs := if d ∈ w.dirs then w.dirs else w.dirs ++ [d] }

/-- Effect of `os.Create`: the path exists afterwards (truncation of an
existing file is invisible here since contents are not modelled). -/
def World.withFile (w : World) (p : String) : World :=
  { w with files := if p ∈ w.files then w.files else w.files ++ [p] }

/-- Effect of `sceneManager.SetVideo`. -/
def World.withVideo (w : World) (id : String) (v : Video) : World :=
  { w with store := { w.store with videos := setAssoc w.store.videos id v } }

/-- Effect of `sceneManager.SetSceneName`. -/
def World.withSceneName (w : World) (id name : String) : World :=
  { w with store := { w.store with sceneNames := setAssoc w.store.sceneNames id name } }

/-- Effect of `sceneManager.SetTrainingConfig`. -/
def World.withTrainingConfig (w : World) (id : String) (c : TrainingConfig) : World :=
  { w with store := { w.store with trainingConfigs := setAssoc w.store.trainingConfigs id c } }

/-- Effect of `mqService.PublishSfmJob`: one more message on the queue. -/
def World.withQueued (w : World) (m : String × Video × TrainingConfig) : World :=
  { w with queue := w.queue ++ [m] }

/-- Effect of `userManager.UpdateUser`: store the user document by id. -/
def World.withUser (w : World) (u : User) : World :=
  { w with users := setAssoc w.users u.id u }

/-- Environment for one `HandleIncomingVideo` run: the outcome of each
external call, in pipeline order, plus the identifier produced by
`primitive.NewObjectID().Hex()`.  A failing call leaves the world
unchanged; a succeeding call applies its `World` effect. -/
structure SubmitEnv where
  statResult : Except GoErr FileInfo
  freshID : String
  mkdirResult : Except GoErr Unit
  createResult : Except GoErr Unit
  openResult : Except GoErr Unit
  copyResult : Except GoErr Unit
  setVideoResult : Except GoErr Unit
  setSceneNameResult : Except GoErr Unit
  setTrainingConfigResult : Except GoErr Unit
  publishResult : Except GoErr Unit
  getUserResult : Except GoErr User
  updateUserResult : Except GoErr Unit

/-- `HandleIncomingVideo` from `ClientService.go`: validate the upload,
allocate the job identifier, store the video file, perform the three scene
store writes, publish the queue message, and attribute the job to the
user; every step fails fast, propagating the failing call's error with no
compensation (the deferred `Close` calls have no observable effect in this
model and the `s.loger` statement on the publish-failure path is a
logging no-op).  Returns the Go result, the final world and the call
trace. -/
def HandleIncomingVideo (env : SubmitEnv) (w : World) (userID : String)
    (req : VideoUploadRequest) :
    Except GoErr String × World × List Event :=
  match env.statResult with
  | .error e => (.error (.wrap "failed to get file stats" e), w, [.statFile])
  | .ok fileStat =>
    let fileName := fileStat.name
    if fileName = "" then (.error (.errMsg "file not received"), w, [.statFile])
    else if goExt fileName ≠ ".mp4" then
      (.error (.errMsg "improper file extension"), w, [.statFile])
    else
      let jobID := env.freshID
      let videoName := jobID ++ ".mp4"
      let videosFolder := "data/raw/videos"
      match env.mkdirResult with
      | .error e => (.error e, w, [.statFile, .mkdirAll videosFolder])
      | .ok _ =>
        let w1 := w.withDir videosFolder
        let videoFilePath := filepathJoin videosFolder videoName
        match env.createResult with
        | .error e =>
          (.error e, w1, [.statFile, .mkdirAll videosFolder, .createFile videoFilePath])
        | .ok _ =>
          let w2 := w1.withFile videoFilePath
          match env.openResult with
          | .error e =>
            (.error e, w2,
              [.statFile, .mkdirAll videosFolder, .createFile videoFilePath, .openFile])
          | .ok _ =>
            match env.copyResult with
            | .error e =>
              (.error e, w2,
                [.statFile, .mkdirAll videosFolder, .createFile videoFilePath, .openFile,
                  .copyFile videoFilePath])
            | .ok _ =>
              let video : Video := { filePath := videoFilePath }
              let trainingConfig : TrainingConfig :=
                { nerfTrainingConfig :=
                    { trainingMode := req.trainingMode
                      outputTypes := req.outputTypes
                      saveIterations := req.saveIterations
                      totalIterations := req.totalIterations } }
              match env.setVideoResult with
              | .error e =>
                (.error e, w2,
                  [.statFile, .mkdirAll videosFolder, .createFile videoFilePath, .openFile,
                    .copyFile videoFilePath, .setVideo jobID video])
              | .ok _ =>
                let w3 := w2.withVideo jobID video
                match env.setSceneNameResult with
                | .error e =>
                  (.error e, w3,
                    [.statFile, .mkdirAll videosFolder, .createFile videoFilePath, .openFile,
                      .copyFile videoFilePath, .setVideo jobID video,
                      .setSceneName jobID req.sceneName])
                | .ok _ =>
                  let w4 := w3.withSceneName jobID req.sceneName
                  match env.setTrainingConfigResult with
                  | .error e =>
                    (.error e, w4,
                      [.statFile, .mkdirAll videosFolder, .createFile videoFilePath, .openFile,
                        .copyFile videoFilePath, .setVideo jobID video,
                        .setSceneName jobID req.sceneName,
                        .setTrainingConfig jobID trainingConfig])
                  | .ok _ =>
                    let w5 := w4.withTrainingConfig jobID trainingConfig
                    match env.publishResult with
                    | .error e =>
                      (.error e, w5,
                        [.statFile, .mkdirAll videosFolder, .createFile videoFilePath,
                          .openFile, .copyFile videoFilePath, .setVideo jobID video,
                          .setSceneName jobID req.sceneName,
                          .setTrainingConfig jobID trainingConfig,
                          .publishSfmJob jobID video trainingConfig])
                    | .ok _ =>
                      let w6 := w5.withQueued (jobID, video, trainingConfig)
                      match env.getUserResult with
                      | .error e =>
                        (.error e, w6,
                          [.statFile, .mkdirAll videosFolder, .createFile videoFilePath,
                            .openFile, .copyFile videoFilePath, .setVideo jobID video,
                            .setSceneName jobID req.sceneName,
                            .setTrainingConfig jobID trainingConfig,
                            .publishSfmJob jobID video trainingConfig, .getUserByID userID])
                      | .ok u =>
                        let u2 := u.addScene jobID
                        match env.updateUserResult with
                        | .error e =>
                          (.error e, w6,
                            [.statFile, .mkdirAll videosFolder, .createFile videoFilePath,
                              .openFile, .copyFile videoFilePath, .setVideo jobID video,
                              .setSceneName jobID req.sceneName,
                              .setTrainingConfig jobID trainingConfig,
                              .publishSfmJob jobID video trainingConfig, .getUserByID userID,
                              .updateUser u2])
                        | .ok _ =>
                          (.ok jobID, w6.withUser u2,
                            [.statFile, .mkdirAll videosFolder, .createFile videoFilePath,
                              .openFile, .copyFile videoFilePath, .setVideo jobID video,
                              .setSceneName jobID req.sceneName,
                              .setTrainingConfig jobID trainingConfig,
                              .publishSfmJob jobID video trainingConfig, .getUserByID userID,
                              .updateUser u2])

/-- The complete ordered sequence of outbound calls of a fully successful
submission — the spec's step order (validate / allocate / store file /
`SetVideo`, `SetSceneName`, `SetTrainingConfig` / publish / attribute).
The trailing user update is determined by the fetched user document. -/
def fullSubmitTrace (env : SubmitEnv) (userID : String) (req : VideoUploadRequest) :
    List Event :=
  let jobID := env.freshID
  let videoFilePath := filepathJoin "data/raw/videos" (jobID ++ ".mp4")
  let video : Video := { filePath := videoFilePath }
  let trainingConfig : TrainingConfig :=
    { nerfTrainingConfig :=
        { trainingMode := req.trainingMode
          outputTypes := req.outputTypes
          saveIterations := req.saveIterations
          totalIterations := req.totalIterations } }
  [Event.statFile, .mkdirAll "data/raw/videos", .createFile videoFilePath, .openFile,
    .copyFile videoFilePath, .setVideo jobID video, .setSceneName jobID req.sceneName,
    .setTrainingConfig jobID trainingConfig, .publishSfmJob jobID video trainingConfig,
    .getUserByID userID] ++
    match env.getUserResult with
    | .ok u => [Event.updateUser (u.addScene jobID)]
    | .error _ => []

/-- Concrete artifact registry used by witnesses: one iteration of one type. -/
def nerfW : Nerf :=
  ⟨fun _ => [("1000", "data/nerf/rgb/1000.mp4")]⟩

/-- Concrete training config used by witnesses. -/
def configW : TrainingConfig :=
  ⟨⟨"gaussian_splatting", ["rgb"], [1000], 30000⟩⟩

/-- Concrete metadata environment: authorized user, every path stats with
byte size `n`. -/
def metaEnvN (n : Nat) : MetaEnv :=
  ⟨fun _ _ => .ok true, fun _ => .ok nerfW, fun _ => .ok configW, fun _ => some n⟩

/-- A second metadata environment, definitionally equal to `metaEnvN 42`
but written differently (used to instantiate the idempotence claim). -/
def metaEnvN42 : MetaEnv :=
  ⟨fun _ _ => .ok true, fun _ => .ok nerfW, fun _ => .ok configW, fun _ => some (40 + 2)⟩

/-- Concrete environment whose authorization lookup reports not authorized. -/
def unauthEnv : MetaEnv :=
  ⟨fun _ _ => .ok false, fun _ => .ok nerfW, fun _ => .ok configW, fun _ => none⟩

/-- Concrete environment whose authorization lookup itself fails. -/
def deniedEnv : MetaEnv :=
  ⟨fun _ _ => .error (.external "lookup failed"), fun _ => .ok nerfW,
    fun _ => .ok configW, fun _ => none⟩

/-- Concrete upload request used by witnesses. -/
def reqW : VideoUploadRequest :=
  ⟨"gaussian_splatting", ["rgb"], [1000], 30000, "my scene"⟩

/-- Concrete user document used by witnesses. -/
def userW : User :=
  ⟨"64aa0000000000000000aa01", []⟩

/-- Submission environment in which every external call succeeds. -/
def submitEnvOk : SubmitEnv :=
  ⟨.ok ⟨"clip.mp4"⟩, "64bb0000000000000000bb02", .ok (), .ok (), .ok (), .ok (),
    .ok (), .ok (), .ok (), .ok (), .ok userW, .ok ()⟩

/-- Like `submitEnvOk` but with a distinct fresh identifier. -/
def submitEnvOk2 : SubmitEnv :=
  { submitEnvOk with freshID := "64cc0000000000000000cc03" }

/-- Like `submitEnvOk` but `SetSceneName` fails. -/
def submitEnvSceneNameFail : SubmitEnv :=
  { submitEnvOk with setSceneNameResult := .error (.external "db down") }

/-- Like `submitEnvOk` but the upload reports a `.mov` file name. -/
def submitEnvBadExt : SubmitEnv :=
  { submitEnvOk with statResult := .ok ⟨"clip.mov"⟩ }

/-- Like `submitEnvOk` but the upload reports an empty file name. -/
def submitEnvNoName : SubmitEnv :=
  { submitEnvOk with statResult := .ok ⟨""⟩ }

/-- The empty initial world. -/
def emptyWorld : World :=
  ⟨[], [], ⟨[], [], []⟩, [], []⟩

theorem extList_append_mp4 (l : List Char) (h : ∀ c ∈ l, c ≠ '.' ∧ c ≠ '/') :
    extList (l ++ [ '.', 'm', 'p', '4' ]) = [ '.', 'm', 'p', '4' ] := by
  induction l with
  | nil => rfl
  | cons c t ih =>
    have ht : ∀ x ∈ t, x ≠ '.' ∧ x ≠ '/' := fun x hx => h x (List.mem_cons_of_mem _ hx)
    rw [List.cons_append]
    simp only [extList, ih ht]
    simp

theorem fileStem_append_mp4 (s : String) (h : ∀ c ∈ s.data, c ≠ '.' ∧ c ≠ '/') :
    fileStem (s ++ ".mp4") = s := by
  unfold fileStem
  have hd : (s ++ ".mp4").data = s.data ++ [ '.', 'm', 'p', '4' ] := rfl
  rw [hd, extList_append_mp4 s.data h]
  simp only [List.length_append, List.length_cons, List.length_nil]
  have hlen : s.data.length + (0 + 1 + 1 + 1 + 1) - 4 = s.data.length := by omega
  rw [show (0 + 1 + 1 + 1 + 1 : Nat) = 4 from rfl, Nat.add_sub_cancel,
    List.take_left]

theorem buildResources_keys (env : MetaEnv) (nerf : Nerf) (f : String) (l : List String) :
    (buildResources env nerf f l).1.map Prod.fst
      = l.filter (fun ot => decide (f = "" ∨ f = ot)) := by
  induction l with
  | nil => rfl
  | cons ot rest ih =>
    simp only [buildResources, List.filter_cons]
    by_cases hc : f = "" ∨ f = ot
    · simp [hc, ih]
    · simp [hc, ih]

theorem buildResources_entries (env : MetaEnv) (nerf : Nerf) (f : String) (l : List String) :
    ∀ x ∈ (buildResources env nerf f l).1,
      x.2 = (nerf.getFilePathsForOutputType x.1).map (fun p => (p.1, probeFile env p.2)) := by
  induction l with
  | nil => intro x hx; simp [buildResources] at hx
  | cons ot rest ih =>
    intro x hx
    simp only [buildResources] at hx
    by_cases hc : f = "" ∨ f = ot
    · rw [if_pos hc] at hx
      rcases List.mem_cons.mp hx with h | h
      · subst h; rfl
      · exact ih x h
    · rw [if_neg hc] at hx
      exact ih x hx

theorem buildResources_congr (env1 env2 : MetaEnv) (nerf : Nerf) (f : String)
    (hstat : env1.statSize = env2.statSize) (l : List String) :
    buildResources env1 nerf f l = buildResources env2 nerf f l := by
  have hp : ∀ p, probeFile env1 p = probeFile env2 p := by
    intro p
    unfold probeFile
    rw [hstat]
  induction l with
  | nil => rfl
  | cons ot rest ih => simp only [buildResources, ih, hp]

theorem filter_matching_single (f : String) (l : List String) (hne : f ≠ "")
    (hmem : f ∈ l) (hnd : l.Nodup) :
    l.filter (fun ot => decide (f = "" ∨ f = ot)) = [f] := by
  induction l with
  | nil => cases hmem
  | cons a rest ih =>
    rcases List.nodup_cons.mp hnd with ⟨ha, hrest⟩
    by_cases hfa : f = a
    · subst hfa
      have hnil : rest.filter (fun ot => decide (f = "" ∨ f = ot)) = [] := by
        apply List.filter_eq_nil_iff.mpr
        intro b hb
        simp only [decide_eq_true_eq]
        rintro (h1 | h2)
        · exact hne h1
        · exact ha (h2 ▸ hb)
      rw [List.filter_cons_of_pos (by simp), hnil]
    · have hmem' : f ∈ rest := by
        rcases List.mem_cons.mp hmem with h | h
        · exact absurd h hfa
        · exact h
      rw [List.filter_cons_of_neg (by simp [hne, hfa]), ih hmem' hrest]

/-- Claim C1: for every artifact file that exists with byte size `N > 0`,
the metadata probe of `GetNerfMetadata` returns a `ResourceInfo` with
`exists = true`, `size = N`, `chunks = ⌈N / U⌉` (ceiling division) and
`lastChunkSize = U` when `N % U = 0`, else `N % U`, where `U = 1048576`. -/
theorem C1_chunk_arithmetic (env : MetaEnv) (path : String) (N : Nat)
    (hstat : env.statSize path = some N) (hpos : 0 < N) :
    probeFile env path =
      { Exists := true, Size := N, Chunks := N ⌈/⌉ 1048576,
        LastChunkSize := if N % 1048576 = 0 then 1048576 else N % 1048576 } := by
  simp only [probeFile, hstat, Nat.ceilDiv_eq_add_pred_div]

/-- Claim C1 witness: the two sizes named in the claim, `N = 2097152`
giving 2 chunks with last chunk `1048576`, and `N = 1500000` giving 2
chunks with last chunk `451424`. -/
theorem C1_chunk_arithmetic_witness :
    probeFile (metaEnvN 2097152) "p" =
      { Exists := true, Size := 2097152, Chunks := 2, LastChunkSize := 1048576 } ∧
    probeFile (metaEnvN 1500000) "q" =
      { Exists := true, Size := 1500000, Chunks := 2, LastChunkSize := 451424 } := by
  constructor
  · exact (C1_chunk_arithmetic (metaEnvN 2097152) "p" 2097152 rfl (by decide)).trans
      (by decide)
  · exact (C1_chunk_arithmetic (metaEnvN 1500000) "q" 1500000 rfl (by decide)).trans
      (by decide)

/-- Claim C6: an artifact file that exists with byte size exactly `0`
yields `chunks = 0` (ceiling formula) together with
`lastChunkSize = 1048576` (remainder rule) — the internally inconsistent
pair the source exhibits. -/
theorem C6_zero_byte_inconsistency (env : MetaEnv) (path : String)
    (hstat : env.statSize path = some 0) :
    probeFile env path =
      { Exists := true, Size := 0, Chunks := 0, LastChunkSize := 1048576 } := by
  simp [probeFile, hstat]

/-- Claim C6 witness: a concrete zero-byte probe. -/
theorem C6_zero_byte_inconsistency_witness :
    probeFile (metaEnvN 0) "p" =
      { Exists := true, Size := 0, Chunks := 0, LastChunkSize := 1048576 } :=
  C6_zero_byte_inconsistency (metaEnvN 0) "p" rfl

/-- Claim C4 counterexample: when the `UserHasJobAccess` lookup itself
fails, `verifyUserAccess` propagates the lookup's own error, which is not
the AccessDenied error `user.ErrUserNoAccess` — refuting the claim that
both failure modes produce the AccessDenied error. -/
theorem C4_counterexample :
    verifyUserAccess deniedEnv "u1" "s1" = .error (.external "lookup failed") ∧
    GoErr.external "lookup failed" ≠ GoErr.errUserNoAccess :=
  ⟨rfl, by decide⟩

/-- Claim C4 (amended): the guard is fail-closed — it succeeds exactly when
the lookup succeeds and reports authorized; a failing lookup propagates the
lookup's own error unchanged, and a lookup reporting "not authorized"
produces the AccessDenied error `user.ErrUserNoAccess`. -/
theorem C4_fail_closed (env : MetaEnv) (userID sceneID : String) :
    (∀ e, env.userHasJobAccess userID sceneID = .error e →
      verifyUserAccess env userID sceneID = .error e) ∧
    (env.userHasJobAccess userID sceneID = .ok false →
      verifyUserAccess env userID sceneID = .error .errUserNoAccess) ∧
    (env.userHasJobAccess userID sceneID = .ok true →
      verifyUserAccess env userID sceneID = .ok ()) ∧
    (verifyUserAccess env userID sceneID = .ok () →
      env.userHasJobAccess userID sceneID = .ok true) := by
  refine ⟨?_, ?_, ?_, ?_⟩
  · intro e he
    simp [verifyUserAccess, he]
  · intro h
    simp [verifyUserAccess, h]
  · intro h
    simp [verifyUserAccess, h]
  · intro h
    rcases hl : env.userHasJobAccess userID sceneID with e | b
    · simp [verifyUserAccess, hl] at h
    · cases b
      · simp [verifyUserAccess, hl] at h
      · rfl

/-- Claim C4 witness: a concrete "not authorized" lookup produces the
AccessDenied error. -/
theorem C4_fail_closed_witness :
    verifyUserAccess unauthEnv "u1" "s1" = .error .errUserNoAccess :=
  (C4_fail_closed unauthEnv "u1" "s1").2.1 rfl

/-- Claim C5: for a user the lookup reports as not authorized,
`GetNerfMetadata` returns `user.ErrUserNoAccess` unchanged and its call
trace is the single authorization lookup — no registry read, no config
read and no filesystem probe. -/
theorem C5_denied_no_reads (env : MetaEnv) (userID sceneID outputType : String)
    (h : env.userHasJobAccess userID sceneID = .ok false) :
    GetNerfMetadata env userID sceneID outputType =
      (.error .errUserNoAccess, [.userHasJobAccess userID sceneID]) := by
  simp [GetNerfMetadata, verifyUserAccess, h]

/-- Claim C5 witness: concrete denied call. -/
theorem C5_denied_no_reads_witness :
    GetNerfMetadata unauthEnv "u1" "s1" "" =
      (.error .errUserNoAccess, [.userHasJobAccess "u1" "s1"]) :=
  C5_denied_no_reads unauthEnv "u1" "s1" "" rfl

/-- Claim C8: for an authorized call, the returned mapping has exactly the
declared output types as keys when the filter is empty, exactly the single
matching declared type when the filter is non-empty and declared, and one
entry per registered iteration label (with its probed `ResourceInfo`)
within each included type. -/
theorem C8_declared_types_and_iterations (env : MetaEnv)
    (userID sceneID outputType : String) (nerf : Nerf) (config : TrainingConfig)
    (hacc : env.userHasJobAccess userID sceneID = .ok true)
    (hnerf : env.getNerf sceneID = .ok nerf)
    (hconfig : env.getTrainingConfig sceneID = .ok config)
    (hnd : config.nerfTrainingConfig.outputTypes.Nodup) :
    ∃ md, (GetNerfMetadata env userID sceneID outputType).1 = .ok md ∧
      (outputType = "" →
        md.Resources.map Prod.fst = config.nerfTrainingConfig.outputTypes) ∧
      (outputType ≠ "" → outputType ∈ config.nerfTrainingConfig.outputTypes →
        md.Resources.map Prod.fst = [outputType]) ∧
      (∀ entry ∈ md.Resources,
        entry.2 = (nerf.getFilePathsForOutputType entry.1).map
          (fun p => (p.1, probeFile env p.2))) := by
  refine ⟨⟨(buildResources env nerf outputType config.nerfTrainingConfig.outputTypes).1⟩,
    ?_, ?_, ?_, ?_⟩
  · simp [GetNerfMetadata, verifyUserAccess, hacc, hnerf, hconfig]
  · intro h0
    rw [buildResources_keys]
    subst h0
    simp
  · intro hne hmem
    rw [buildResources_keys]
    exact filter_matching_single _ _ hne hmem hnd
  · exact buildResources_entries env nerf outputType _

/-- Claim C8 witness: concrete authorized call with matching filter. -/
theorem C8_declared_types_and_iterations_witness :
    ∃ md, (GetNerfMetadata (metaEnvN 7) "u1" "s1" "rgb").1 = .ok md ∧
      ("rgb" = "" → md.Resources.map Prod.fst = configW.nerfTrainingConfig.outputTypes) ∧
      ("rgb" ≠ "" → "rgb" ∈ configW.nerfTrainingConfig.outputTypes →
        md.Resources.map Prod.fst = ["rgb"]) ∧
      (∀ entry ∈ md.Resources,
        entry.2 = (nerfW.getFilePathsForOutputType entry.1).map
          (fun p => (p.1, probeFile (metaEnvN 7) p.2))) :=
  C8_declared_types_and_iterations (metaEnvN 7) "u1" "s1" "rgb" nerfW configW
    rfl rfl rfl (by decide)

/-- Claim C9: two `GetNerfMetadata` calls by an authorized user between
which the filesystem, the artifact registry and the training config are
unchanged return identical results (and identical call traces). -/
theorem C9_idempotent (env1 env2 : MetaEnv) (userID sceneID outputType : String)
    (h1 : env1.userHasJobAccess userID sceneID = .ok true)
    (h2 : env2.userHasJobAccess userID sceneID = .ok true)
    (hnerf : env1.getNerf sceneID = env2.getNerf sceneID)
    (hconfig : env1.getTrainingConfig sceneID = env2.getTrainingConfig sceneID)
    (hstat : env1.statSize = env2.statSize) :
    GetNerfMetadata env1 userID sceneID outputType =
      GetNerfMetadata env2 userID sceneID outputType := by
  unfold GetNerfMetadata verifyUserAccess
  rw [h1, h2, hnerf, hconfig]
  have hb : ∀ nerf f l, buildResources env1 nerf f l = buildResources env2 nerf f l :=
    fun n f l => buildResources_congr env1 env2 n f hstat l
  simp only [hb]

/-- Claim C9 witness: two definitionally different but observationally
equal environments give identical results. -/
theorem C9_idempotent_witness :
    GetNerfMetadata (metaEnvN 42) "u1" "s1" "" = GetNerfMetadata metaEnvN42 "u1" "s1" "" :=
  C9_idempotent (metaEnvN 42) metaEnvN42 "u1" "s1" "" rfl rfl rfl rfl rfl

/-- Claim C10: an authorized call with a non-empty filter matching no
declared output type succeeds with an empty resources mapping (no error). -/
theorem C10_unmatched_filter_empty (env : MetaEnv) (userID sceneID outputType : String)
    (nerf : Nerf) (config : TrainingConfig)
    (hacc : env.userHasJobAccess userID sceneID = .ok true)
    (hnerf : env.getNerf sceneID = .ok nerf)
    (hconfig : env.getTrainingConfig sceneID = .ok config)
    (hne : outputType ≠ "")
    (hmem : outputType ∉ config.nerfTrainingConfig.outputTypes) :
    (GetNerfMetadata env userID sceneID outputType).1 = .ok { Resources := [] } := by
  have hkeys := buildResources_keys env nerf outputType config.nerfTrainingConfig.outputTypes
  have hfil : config.nerfTrainingConfig.outputTypes.filter
      (fun ot => decide (outputType = "" ∨ outputType = ot)) = [] := by
    apply List.filter_eq_nil_iff.mpr
    intro a ha
    simp only [decide_eq_true_eq]
    rintro (hh1 | hh2)
    · exact hne hh1
    · exact hmem (hh2 ▸ ha)
  have hnil : (buildResources env nerf outputType config.nerfTrainingConfig.outputTypes).1
      = [] := List.map_eq_nil_iff.mp (hkeys.trans hfil)
  simp [GetNerfMetadata, verifyUserAccess, hacc, hnerf, hconfig, hnil]

/-- Claim C10 witness: filter `depth` with only `rgb` declared. -/
theorem C10_unmatched_filter_empty_witness :
    (GetNerfMetadata (metaEnvN 5) "u1" "s1" "depth").1 = .ok { Resources := [] } :=
  C10_unmatched_filter_empty (metaEnvN 5) "u1" "s1" "depth" nerfW configW
    rfl rfl rfl (by decide) (by decide)

/-- Claim C2: an upload whose reported file name is empty, or whose
extension is not exactly the lowercase string ".mp4", is rejected with the
corresponding validation error; the world is unchanged (no directory
creation, no file write, no store write, no queue publish, no user
mutation) and the only outbound call made is the upload's `Stat`. -/
theorem C2_validation_no_side_effects (env : SubmitEnv) (w : World) (userID : String)
    (req : VideoUploadRequest) (fi : FileInfo) (hstat : env.statResult = .ok fi) :
    (fi.name = "" →
      HandleIncomingVideo env w userID req =
        (.error (.errMsg "file not received"), w, [.statFile])) ∧
    (fi.name ≠ "" → goExt fi.name ≠ ".mp4" →
      HandleIncomingVideo env w userID req =
        (.error (.errMsg "improper file extension"), w, [.statFile])) := by
  constructor
  · intro hn
    simp [HandleIncomingVideo, hstat, hn]
  · intro hn he
    simp [HandleIncomingVideo, hstat, hn, he]

/-- Claim C2 witness: an empty-named upload and a `.mov` upload are both
rejected with the world untouched. -/
theorem C2_validation_no_side_effects_witness :
    HandleIncomingVideo submitEnvNoName emptyWorld "u1" reqW =
      (.error (.errMsg "file not received"), emptyWorld, [.statFile]) ∧
    HandleIncomingVideo submitEnvBadExt emptyWorld "u1" reqW =
      (.error (.errMsg "improper file extension"), emptyWorld, [.statFile]) :=
  ⟨(C2_validation_no_side_effects submitEnvNoName emptyWorld "u1" reqW ⟨""⟩ rfl).1 rfl,
    (C2_validation_no_side_effects submitEnvBadExt emptyWorld "u1" reqW ⟨"clip.mov"⟩ rfl).2
      (by decide) (by decide)⟩


/-- Complete case characterization of one `HandleIncomingVideo` run: for
every way a step can be the first to fail, the returned error, the final
world and the call trace; and the same data for a fully successful run. -/
theorem submit_cases (env : SubmitEnv) (w : World)
    (userID : String) (req : VideoUploadRequest) :
    (∀ e, env.statResult = .error e →
      HandleIncomingVideo env w userID req =
        (.error (.wrap "failed to get file stats" e), w, [.statFile])) ∧
    (∀ fi, env.statResult = .ok fi → fi.name = "" →
      HandleIncomingVideo env w userID req =
        (.error (.errMsg "file not received"), w, [.statFile])) ∧
    (∀ fi, env.statResult = .ok fi → fi.name ≠ "" → goExt fi.name ≠ ".mp4" →
      HandleIncomingVideo env w userID req =
        (.error (.errMsg "improper file extension"), w, [.statFile])) ∧
    (∀ fi e, env.statResult = .ok fi → fi.name ≠ "" → goExt fi.name = ".mp4" →
      env.mkdirResult = .error e →
      HandleIncomingVideo env w userID req =
        (.error e, w,
        [.statFile,
        .mkdirAll "data/raw/videos"])) ∧
    (∀ fi e, env.statResult = .ok fi → fi.name ≠ "" → goExt fi.name = ".mp4" →
      env.mkdirResult = .ok () → env.createResult = .error e →
      HandleIncomingVideo env w userID req =
        (.error e, w.withDir "data/raw/videos",
        [.statFile,
        .mkdirAll "data/raw/videos",
        .createFile (filepathJoin "data/raw/videos" (env.freshID ++ ".mp4"))])) ∧
    (∀ fi e, env.statResult = .ok fi → fi.name ≠ "" → goExt fi.name = ".mp4" →
      env.mkdirResult = .ok () → env.createResult = .ok () →
      env.openResult = .error e →
      HandleIncomingVideo env w userID req =
        (.error e, (w.withDir "data/raw/videos").withFile (filepathJoin "data/raw/videos" (env.freshID ++ ".mp4")),
        [.statFile,
        .mkdirAll "data/raw/videos",
        .createFile (filepathJoin "data/raw/videos" (env.freshID ++ ".mp4")),
        .openFile])) ∧
    (∀ fi e, env.statResult = .ok fi → fi.name ≠ "" → goExt fi.name = ".mp4" →
      env.mkdirResult = .ok () → env.createResult = .ok () →
      env.openResult = .ok () → env.copyResult = .error e →
      HandleIncomingVideo env w userID req =
        (.error e, (w.withDir "data/raw/videos").withFile (filepathJoin "data/raw/videos" (env.freshID ++ ".mp4")),
        [.statFile,
        .mkdirAll "data/raw/videos",
        .createFile (filepathJoin "data/raw/videos" (env.freshID ++ ".mp4")),
        .openFile,
        .copyFile (filepathJoin "data/raw/videos" (env.freshID ++ ".mp4"))])) ∧
    (∀ fi e, env.statResult = .ok fi → fi.name ≠ "" → goExt fi.name = ".mp4" →
      env.mkdirResult = .ok () → env.createResult = .ok () →
      env.openResult = .ok () → env.copyResult = .ok () →
      env.setVideoResult = .error e →
      HandleIncomingVideo env w userID req =
        (.error e, (w.withDir "data/raw/videos").withFile (filepathJoin "data/raw/videos" (env.freshID ++ ".mp4")),
        [.statFile,
        .mkdirAll "data/raw/videos",
        .createFile (filepathJoin "data/raw/videos" (env.freshID ++ ".mp4")),
        .openFile,
        .copyFile (filepathJoin "data/raw/videos" (env.freshID ++ ".mp4")),
        .setVideo env.freshID { filePath := filepathJoin "data/raw/videos" (env.freshID ++ ".mp4") }])) ∧
    (∀ fi e, env.statResult = .ok fi → fi.name ≠ "" → goExt fi.name = ".mp4" →
      env.mkdirResult = .ok () → env.createResult = .ok () →
      env.openResult = .ok () → env.copyResult = .ok () →
      env.setVideoResult = .ok () → env.setSceneNameResult = .error e →
      HandleIncomingVideo env w userID req =
        (.error e, ((w.withDir "data/raw/videos").withFile (filepathJoin "data/raw/videos" (env.freshID ++ ".mp4"))).withVideo env.freshID { filePath := filepathJoin "data/raw/videos" (env.freshID ++ ".mp4") },
        [.statFile,
        .mkdirAll "data/raw/videos",
        .createFile (filepathJoin "data/raw/videos" (env.freshID ++ ".mp4")),
        .openFile,
        .copyFile (filepathJoin "data/raw/videos" (env.freshID ++ ".mp4")),
        .setVideo env.freshID { filePath := filepathJoin "data/raw/videos" (env.freshID ++ ".mp4") },
        .setSceneName env.freshID req.sceneName])) ∧
    (∀ fi e, env.statResult = .ok fi → fi.name ≠ "" → goExt fi.name = ".mp4" →
      env.mkdirResult = .ok () → env.createResult = .ok () →
      env.openResult = .ok () → env.copyResult = .ok () →
      env.setVideoResult = .ok () → env.setSceneNameResult = .ok () →
      env.setTrainingConfigResult = .error e →
      HandleIncomingVideo env w userID req =
        (.error e, (((w.withDir "data/raw/videos").withFile (filepathJoin "data/raw/videos" (env.freshID ++ ".mp4"))).withVideo env.freshID { filePath := filepathJoin "data/raw/videos" (env.freshID ++ ".mp4") }).withSceneName env.freshID req.sceneName,
        [.statFile,
        .mkdirAll "data/raw/videos",
        .createFile (filepathJoin "data/raw/videos" (env.freshID ++ ".mp4")),
        .openFile,
        .copyFile (filepathJoin "data/raw/videos" (env.freshID ++ ".mp4")),
        .setVideo env.freshID { filePath := filepathJoin "data/raw/videos" (env.freshID ++ ".mp4") },
        .setSceneName env.freshID req.sceneName,
        .setTrainingConfig env.freshID { nerfTrainingConfig :=
          { trainingMode := req.trainingMode
            outputTypes := req.outputTypes
            saveIterations := req.saveIterations
            totalIterations := req.totalIterations } }])) ∧
    (∀ fi e, env.statResult = .ok fi → fi.name ≠ "" → goExt fi.name = ".mp4" →
      env.mkdirResult = .ok () → env.createResult = .ok () →
      env.openResult = .ok () → env.copyResult = .ok () →
      env.setVideoResult = .ok () → env.setSceneNameResult = .ok () →
      env.setTrainingConfigResult = .ok () → env.publishResult = .error e →
      HandleIncomingVideo env w userID req =
        (.error e, ((((w.withDir "data/raw/videos").withFile (filepathJoin "data/raw/videos" (env.freshID ++ ".mp4"))).withVideo env.freshID { filePath := filepathJoin "data/raw/videos" (env.freshID ++ ".mp4") }).withSceneName env.freshID req.sceneName).withTrainingConfig env.freshID
        { nerfTrainingConfig :=
          { trainingMode := req.trainingMode
            outputTypes := req.outputTypes
            saveIterations := req.saveIterations
            totalIterations := req.totalIterations } },
        [.statFile,
        .mkdirAll "data/raw/videos",
        .createFile (filepathJoin "data/raw/videos" (env.freshID ++ ".mp4")),
        .openFile,
        .copyFile (filepathJoin "data/raw/videos" (env.freshID ++ ".mp4")),
        .setVideo env.freshID { filePath := filepathJoin "data/raw/videos" (env.freshID ++ ".mp4") },
        .setSceneName env.freshID req.sceneName,
        .setTrainingConfig env.freshID { nerfTrainingConfig :=
          { trainingMode := req.trainingMode
            outputTypes := req.outputTypes
            saveIterations := req.saveIterations
            totalIterations := req.totalIterations } },
        .publishSfmJob env.freshID { filePath := filepathJoin "data/raw/videos" (env.freshID ++ ".mp4") } { nerfTrainingConfig :=
          { trainingMode := req.trainingMode
            outputTypes := req.outputTypes
            saveIterations := req.saveIterations
            totalIterations := req.totalIterations } }])) ∧
    (∀ fi e, env.statResult = .ok fi → fi.name ≠ "" → goExt fi.name = ".mp4" →
      env.mkdirResult = .ok () → env.createResult = .ok () →
      env.openResult = .ok () → env.copyResult = .ok () →
      env.setVideoResult = .ok () → env.setSceneNameResult = .ok () →
      env.setTrainingConfigResult = .ok () → env.publishResult = .ok () →
      env.getUserResult = .error e →
      HandleIncomingVideo env w userID req =
        (.error e, (((((w.withDir "data/raw/videos").withFile (filepathJoin "data/raw/videos" (env.freshID ++ ".mp4"))).withVideo env.freshID { filePath := filepathJoin "data/raw/videos" (env.freshID ++ ".mp4") }).withSceneName env.freshID req.sceneName).withTrainingConfig env.freshID
        { nerfTrainingConfig :=
          { trainingMode := req.trainingMode
            outputTypes := req.outputTypes
            saveIterations := req.saveIterations
            totalIterations := req.totalIterations } }).withQueued
        (env.freshID, { filePath := filepathJoin "data/raw/videos" (env.freshID ++ ".mp4") },
          { nerfTrainingConfig :=
          { trainingMode := req.trainingMode
            outputTypes := req.outputTypes
            saveIterations := req.saveIterations
            totalIterations := req.totalIterations } }),
        [.statFile,
        .mkdirAll "data/raw/videos",
        .createFile (filepathJoin "data/raw/videos" (env.freshID ++ ".mp4")),
        .openFile,
        .copyFile (filepathJoin "data/raw/videos" (env.freshID ++ ".mp4")),
        .setVideo env.freshID { filePath := filepathJoin "data/raw/videos" (env.freshID ++ ".mp4") },
        .setSceneName env.freshID req.sceneName,
        .setTrainingConfig env.freshID { nerfTrainingConfig :=
          { trainingMode := req.trainingMode
            outputTypes := req.outputTypes
            saveIterations := req.saveIterations
            totalIterations := req.totalIterations } },
        .publishSfmJob env.freshID { filePath := filepathJoin "data/raw/videos" (env.freshID ++ ".mp4") } { nerfTrainingConfig :=
          { trainingMode := req.trainingMode
            outputTypes := req.outputTypes
            saveIterations := req.saveIterations
            totalIterations := req.totalIterations } },
        .getUserByID userID])) ∧
    (∀ fi u e, env.statResult = .ok fi → fi.name ≠ "" → goExt fi.name = ".mp4" →
      env.mkdirResult = .ok () → env.createResult = .ok () →
      env.openResult = .ok () → env.copyResult = .ok () →
      env.setVideoResult = .ok () → env.setSceneNameResult = .ok () →
      env.setTrainingConfigResult = .ok () → env.publishResult = .ok () →
      env.getUserResult = .ok u → env.updateUserResult = .error e →
      HandleIncomingVideo env w userID req =
        (.error e, (((((w.withDir "data/raw/videos").withFile (filepathJoin "data/raw/videos" (env.freshID ++ ".mp4"))).withVideo env.freshID { filePath := filepathJoin "data/raw/videos" (env.freshID ++ ".mp4") }).withSceneName env.freshID req.sceneName).withTrainingConfig env.freshID
        { nerfTrainingConfig :=
          { trainingMode := req.trainingMode
            outputTypes := req.outputTypes
            saveIterations := req.saveIterations
            totalIterations := req.totalIterations } }).withQueued
        (env.freshID, { filePath := filepathJoin "data/raw/videos" (env.freshID ++ ".mp4") },
          { nerfTrainingConfig :=
          { trainingMode := req.trainingMode
            outputTypes := req.outputTypes
            saveIterations := req.saveIterations
            totalIterations := req.totalIterations } }),
        [.statFile,
        .mkdirAll "data/raw/videos",
        .createFile (filepathJoin "data/raw/videos" (env.freshID ++ ".mp4")),
        .openFile,
        .copyFile (filepathJoin "data/raw/videos" (env.freshID ++ ".mp4")),
        .setVideo env.freshID { filePath := filepathJoin "data/raw/videos" (env.freshID ++ ".mp4") },
        .setSceneName env.freshID req.sceneName,
        .setTrainingConfig env.freshID { nerfTrainingConfig :=
          { trainingMode := req.trainingMode
            outputTypes := req.outputTypes
            saveIterations := req.saveIterations
            totalIterations := req.totalIterations } },
        .publishSfmJob env.freshID { filePath := filepathJoin "data/raw/videos" (env.freshID ++ ".mp4") } { nerfTrainingConfig :=
          { trainingMode := req.trainingMode
            outputTypes := req.outputTypes
            saveIterations := req.saveIterations
            totalIterations := req.totalIterations } },
        .getUserByID userID,
        .updateUser (u.addScene env.freshID)])) ∧
    (∀ fi u, env.statResult = .ok fi → fi.name ≠ "" → goExt fi.name = ".mp4" →
      env.mkdirResult = .ok () → env.createResult = .ok () →
      env.openResult = .ok () → env.copyResult = .ok () →
      env.setVideoResult = .ok () → env.setSceneNameResult = .ok () →
      env.setTrainingConfigResult = .ok () → env.publishResult = .ok () →
      env.getUserResult = .ok u → env.updateUserResult = .ok () →
      HandleIncomingVideo env w userID req =
        (.ok env.freshID, ((((((w.withDir "data/raw/videos").withFile (filepathJoin "data/raw/videos" (env.freshID ++ ".mp4"))).withVideo env.freshID { filePath := filepathJoin "data/raw/videos" (env.freshID ++ ".mp4") }).withSceneName env.freshID req.sceneName).withTrainingConfig env.freshID
        { nerfTrainingConfig :=
          { trainingMode := req.trainingMode
            outputTypes := req.outputTypes
            saveIterations := req.saveIterations
            totalIterations := req.totalIterations } }).withQueued
        (env.freshID, { filePath := filepathJoin "data/raw/videos" (env.freshID ++ ".mp4") },
          { nerfTrainingConfig :=
          { trainingMode := req.trainingMode
            outputTypes := req.outputTypes
            saveIterations := req.saveIterations
            totalIterations := req.totalIterations } })).withUser (u.addScene env.freshID),
        [.statFile,
        .mkdirAll "data/raw/videos",
        .createFile (filepathJoin "data/raw/videos" (env.freshID ++ ".mp4")),
        .openFile,
        .copyFile (filepathJoin "data/raw/videos" (env.freshID ++ ".mp4")),
        .setVideo env.freshID { filePath := filepathJoin "data/raw/videos" (env.freshID ++ ".mp4") },
        .setSceneName env.freshID req.sceneName,
        .setTrainingConfig env.freshID { nerfTrainingConfig :=
          { trainingMode := req.trainingMode
            outputTypes := req.outputTypes
            saveIterations := req.saveIterations
            totalIterations := req.totalIterations } },
        .publishSfmJob env.freshID { filePath := filepathJoin "data/raw/videos" (env.freshID ++ ".mp4") } { nerfTrainingConfig :=
          { trainingMode := req.trainingMode
            outputTypes := req.outputTypes
            saveIterations := req.saveIterations
            totalIterations := req.totalIterations } },
        .getUserByID userID,
        .updateUser (u.addScene env.freshID)])) := by
  refine ⟨?_, ?_, ?_, ?_, ?_, ?_, ?_, ?_, ?_, ?_, ?_, ?_, ?_, ?_⟩
  · intro e he
    simp [HandleIncomingVideo, he]
  · intro fi h1 h2
    simp [HandleIncomingVideo, h1, h2]
  · intro fi h1 h2 h3
    simp [HandleIncomingVideo, h1, h2, h3]
  · intro fi e h1 h2 h3 g1
    simp [HandleIncomingVideo, h1, h2, h3, g1]
  · intro fi e h1 h2 h3 g1 g2
    simp [HandleIncomingVideo, h1, h2, h3, g1, g2]
  · intro fi e h1 h2 h3 g1 g2 g3
    simp [HandleIncomingVideo, h1, h2, h3, g1, g2, g3]
  · intro fi e h1 h2 h3 g1 g2 g3 g4
    simp [HandleIncomingVideo, h1, h2, h3, g1, g2, g3, g4]
  · intro fi e h1 h2 h3 g1 g2 g3 g4 g5
    simp [HandleIncomingVideo, h1, h2, h3, g1, g2, g3, g4, g5]
  · intro fi e h1 h2 h3 g1 g2 g3 g4 g5 g6
    simp [HandleIncomingVideo, h1, h2, h3, g1, g2, g3, g4, g5, g6]
  · intro fi e h1 h2 h3 g1 g2 g3 g4 g5 g6 g7
    simp [HandleIncomingVideo, h1, h2, h3, g1, g2, g3, g4, g5, g6, g7]
  · intro fi e h1 h2 h3 g1 g2 g3 g4 g5 g6 g7 g8
    simp [HandleIncomingVideo, h1, h2, h3, g1, g2, g3, g4, g5, g6, g7, g8]
  · intro fi e h1 h2 h3 g1 g2 g3 g4 g5 g6 g7 g8 g9
    simp [HandleIncomingVideo, h1, h2, h3, g1, g2, g3, g4, g5, g6, g7, g8, g9]
  · intro fi u e h1 h2 h3 g1 g2 g3 g4 g5 g6 g7 g8 g9 g10
    simp [HandleIncomingVideo, h1, h2, h3, g1, g2, g3, g4, g5, g6, g7, g8, g9, g10]
  · intro fi u h1 h2 h3 g1 g2 g3 g4 g5 g6 g7 g8 g9 g10
    simp [HandleIncomingVideo, h1, h2, h3, g1, g2, g3, g4, g5, g6, g7, g8, g9, g10]

/-- Claim C3: within one submission the pipeline steps run strictly in the
listed order — the call trace is always a prefix of the canonical full
sequence, so no step starts before the previous one succeeded and no
rollback or compensating call is ever issued — and a failure at any step
returns that step's error immediately with exactly the calls made so far
in the trace, the world then holding precisely the writes of the completed
earlier steps (the stored file and completed store writes stay in place). -/
theorem C3_pipeline_order_failfast_no_rollback (env : SubmitEnv) (w : World)
    (userID : String) (req : VideoUploadRequest) :
    (HandleIncomingVideo env w userID req).2.2 <+: fullSubmitTrace env userID req ∧
    (∀ e, env.statResult = .error e →
      HandleIncomingVideo env w userID req =
        (.error (.wrap "failed to get file stats" e), w, [.statFile])) ∧
    (∀ fi, env.statResult = .ok fi → fi.name = "" →
      HandleIncomingVideo env w userID req =
        (.error (.errMsg "file not received"), w, [.statFile])) ∧
    (∀ fi, env.statResult = .ok fi → fi.name ≠ "" → goExt fi.name ≠ ".mp4" →
      HandleIncomingVideo env w userID req =
        (.error (.errMsg "improper file extension"), w, [.statFile])) ∧
    (∀ fi e, env.statResult = .ok fi → fi.name ≠ "" → goExt fi.name = ".mp4" →
      env.mkdirResult = .error e →
      HandleIncomingVideo env w userID req =
        (.error e, w,
        [.statFile,
        .mkdirAll "data/raw/videos"])) ∧
    (∀ fi e, env.statResult = .ok fi → fi.name ≠ "" → goExt fi.name = ".mp4" →
      env.mkdirResult = .ok () → env.createResult = .error e →
      HandleIncomingVideo env w userID req =
        (.error e, w.withDir "data/raw/videos",
        [.statFile,
        .mkdirAll "data/raw/videos",
        .createFile (filepathJoin "data/raw/videos" (env.freshID ++ ".mp4"))])) ∧
    (∀ fi e, env.statResult = .ok fi → fi.name ≠ "" → goExt fi.name = ".mp4" →
      env.mkdirResult = .ok () → env.createResult = .ok () →
      env.openResult = .error e →
      HandleIncomingVideo env w userID req =
        (.error e, (w.withDir "data/raw/videos").withFile (filepathJoin "data/raw/videos" (env.freshID ++ ".mp4")),
        [.statFile,
        .mkdirAll "data/raw/videos",
        .createFile (filepathJoin "data/raw/videos" (env.freshID ++ ".mp4")),
        .openFile])) ∧
    (∀ fi e, env.statResult = .ok fi → fi.name ≠ "" → goExt fi.name = ".mp4" →
      env.mkdirResult = .ok () → env.createResult = .ok () →
      env.openResult = .ok () → env.copyResult = .error e →
      HandleIncomingVideo env w userID req =
        (.error e, (w.withDir "data/raw/videos").withFile (filepathJoin "data/raw/videos" (env.freshID ++ ".mp4")),
        [.statFile,
        .mkdirAll "data/raw/videos",
        .createFile (filepathJoin "data/raw/videos" (env.freshID ++ ".mp4")),
        .openFile,
        .copyFile (filepathJoin "data/raw/videos" (env.freshID ++ ".mp4"))])) ∧
    (∀ fi e, env.statResult = .ok fi → fi.name ≠ "" → goExt fi.name = ".mp4" →
      env.mkdirResult = .ok () → env.createResult = .ok () →
      env.openResult = .ok () → env.copyResult = .ok () →
      env.setVideoResult = .error e →
      HandleIncomingVideo env w userID req =
        (.error e, (w.withDir "data/raw/videos").withFile (filepathJoin "data/raw/videos" (env.freshID ++ ".mp4")),
        [.statFile,
        .mkdirAll "data/raw/videos",
        .createFile (filepathJoin "data/raw/videos" (env.freshID ++ ".mp4")),
        .openFile,
        .copyFile (filepathJoin "data/raw/videos" (env.freshID ++ ".mp4")),
        .setVideo env.freshID { filePath := filepathJoin "data/raw/videos" (env.freshID ++ ".mp4") }])) ∧
    (∀ fi e, env.statResult = .ok fi → fi.name ≠ "" → goExt fi.name = ".mp4" →
      env.mkdirResult = .ok () → env.createResult = .ok () →
      env.openResult = .ok () → env.copyResult = .ok () →
      env.setVideoResult = .ok () → env.setSceneNameResult = .error e →
      HandleIncomingVideo env w userID req =
        (.error e, ((w.withDir "data/raw/videos").withFile (filepathJoin "data/raw/videos" (env.freshID ++ ".mp4"))).withVideo env.freshID { filePath := filepathJoin "data/raw/videos" (env.freshID ++ ".mp4") },
        [.statFile,
        .mkdirAll "data/raw/videos",
        .createFile (filepathJoin "data/raw/videos" (env.freshID ++ ".mp4")),
        .openFile,
        .copyFile (filepathJoin "data/raw/videos" (env.freshID ++ ".mp4")),
        .setVideo env.freshID { filePath := filepathJoin "data/raw/videos" (env.freshID ++ ".mp4") },
        .setSceneName env.freshID req.sceneName])) ∧
    (∀ fi e, env.statResult = .ok fi → fi.name ≠ "" → goExt fi.name = ".mp4" →
      env.mkdirResult = .ok () → env.createResult = .ok () →
      env.openResult = .ok () → env.copyResult = .ok () →
      env.setVideoResult = .ok () → env.setSceneNameResult = .ok () →
      env.setTrainingConfigResult = .error e →
      HandleIncomingVideo env w userID req =
        (.error e, (((w.withDir "data/raw/videos").withFile (filepathJoin "data/raw/videos" (env.freshID ++ ".mp4"))).withVideo env.freshID { filePath := filepathJoin "data/raw/videos" (env.freshID ++ ".mp4") }).withSceneName env.freshID req.sceneName,
        [.statFile,
        .mkdirAll "data/raw/videos",
        .createFile (filepathJoin "data/raw/videos" (env.freshID ++ ".mp4")),
        .openFile,
        .copyFile (filepathJoin "data/raw/videos" (env.freshID ++ ".mp4")),
        .setVideo env.freshID { filePath := filepathJoin "data/raw/videos" (env.freshID ++ ".mp4") },
        .setSceneName env.freshID req.sceneName,
        .setTrainingConfig env.freshID { nerfTrainingConfig :=
          { trainingMode := req.trainingMode
            outputTypes := req.outputTypes
            saveIterations := req.saveIterations
            totalIterations := req.totalIterations } }])) ∧
    (∀ fi e, env.statResult = .ok fi → fi.name ≠ "" → goExt fi.name = ".mp4" →
      env.mkdirResult = .ok () → env.createResult = .ok () →
      env.openResult = .ok () → env.copyResult = .ok () →
      env.setVideoResult = .ok () → env.setSceneNameResult = .ok () →
      env.setTrainingConfigResult = .ok () → env.publishResult = .error e →
      HandleIncomingVideo env w userID req =
        (.error e, ((((w.withDir "data/raw/videos").withFile (filepathJoin "data/raw/videos" (env.freshID ++ ".mp4"))).withVideo env.freshID { filePath := filepathJoin "data/raw/videos" (env.freshID ++ ".mp4") }).withSceneName env.freshID req.sceneName).withTrainingConfig env.freshID
        { nerfTrainingConfig :=
          { trainingMode := req.trainingMode
            outputTypes := req.outputTypes
            saveIterations := req.saveIterations
            totalIterations := req.totalIterations } },
        [.statFile,
        .mkdirAll "data/raw/videos",
        .createFile (filepathJoin "data/raw/videos" (env.freshID ++ ".mp4")),
        .openFile,
        .copyFile (filepathJoin "data/raw/videos" (env.freshID ++ ".mp4")),
        .setVideo env.freshID { filePath := filepathJoin "data/raw/videos" (env.freshID ++ ".mp4") },
        .setSceneName env.freshID req.sceneName,
        .setTrainingConfig env.freshID { nerfTrainingConfig :=
          { trainingMode := req.trainingMode
            outputTypes := req.outputTypes
            saveIterations := req.saveIterations
            totalIterations := req.totalIterations } },
        .publishSfmJob env.freshID { filePath := filepathJoin "data/raw/videos" (env.freshID ++ ".mp4") } { nerfTrainingConfig :=
          { trainingMode := req.trainingMode
            outputTypes := req.outputTypes
            saveIterations := req.saveIterations
            totalIterations := req.totalIterations } }])) ∧
    (∀ fi e, env.statResult = .ok fi → fi.name ≠ "" → goExt fi.name = ".mp4" →
      env.mkdirResult = .ok () → env.createResult = .ok () →
      env.openResult = .ok () → env.copyResult = .ok () →
      env.setVideoResult = .ok () → env.setSceneNameResult = .ok () →
      env.setTrainingConfigResult = .ok () → env.publishResult = .ok () →
      env.getUserResult = .error e →
      HandleIncomingVideo env w userID req =
        (.error e, (((((w.withDir "data/raw/videos").withFile (filepathJoin "data/raw/videos" (env.freshID ++ ".mp4"))).withVideo env.freshID { filePath := filepathJoin "data/raw/videos" (env.freshID ++ ".mp4") }).withSceneName env.freshID req.sceneName).withTrainingConfig env.freshID
        { nerfTrainingConfig :=
          { trainingMode := req.trainingMode
            outputTypes := req.outputTypes
            saveIterations := req.saveIterations
            totalIterations := req.totalIterations } }).withQueued
        (env.freshID, { filePath := filepathJoin "data/raw/videos" (env.freshID ++ ".mp4") },
          { nerfTrainingConfig :=
          { trainingMode := req.trainingMode
            outputTypes := req.outputTypes
            saveIterations := req.saveIterations
            totalIterations := req.totalIterations } }),
        [.statFile,
        .mkdirAll "data/raw/videos",
        .createFile (filepathJoin "data/raw/videos" (env.freshID ++ ".mp4")),
        .openFile,
        .copyFile (filepathJoin "data/raw/videos" (env.freshID ++ ".mp4")),
        .setVideo env.freshID { filePath := filepathJoin "data/raw/videos" (env.freshID ++ ".mp4") },
        .setSceneName env.freshID req.sceneName,
        .setTrainingConfig env.freshID { nerfTrainingConfig :=
          { trainingMode := req.trainingMode
            outputTypes := req.outputTypes
            saveIterations := req.saveIterations
            totalIterations := req.totalIterations } },
        .publishSfmJob env.freshID { filePath := filepathJoin "data/raw/videos" (env.freshID ++ ".mp4") } { nerfTrainingConfig :=
          { trainingMode := req.trainingMode
            outputTypes := req.outputTypes
            saveIterations := req.saveIterations
            totalIterations := req.totalIterations } },
        .getUserByID userID])) ∧
    (∀ fi u e, env.statResult = .ok fi → fi.name ≠ "" → goExt fi.name = ".mp4" →
      env.mkdirResult = .ok () → env.createResult = .ok () →
      env.openResult = .ok () → env.copyResult = .ok () →
      env.setVideoResult = .ok () → env.setSceneNameResult = .ok () →
      env.setTrainingConfigResult = .ok () → env.publishResult = .ok () →
      env.getUserResult = .ok u → env.updateUserResult = .error e →
      HandleIncomingVideo env w userID req =
        (.error e, (((((w.withDir "data/raw/videos").withFile (filepathJoin "data/raw/videos" (env.freshID ++ ".mp4"))).withVideo env.freshID { filePath := filepathJoin "data/raw/videos" (env.freshID ++ ".mp4") }).withSceneName env.freshID req.sceneName).withTrainingConfig env.freshID
        { nerfTrainingConfig :=
          { trainingMode := req.trainingMode
            outputTypes := req.outputTypes
            saveIterations := req.saveIterations
            totalIterations := req.totalIterations } }).withQueued
        (env.freshID, { filePath := filepathJoin "data/raw/videos" (env.freshID ++ ".mp4") },
          { nerfTrainingConfig :=
          { trainingMode := req.trainingMode
            outputTypes := req.outputTypes
            saveIterations := req.saveIterations
            totalIterations := req.totalIterations } }),
        [.statFile,
        .mkdirAll "data/raw/videos",
        .createFile (filepathJoin "data/raw/videos" (env.freshID ++ ".mp4")),
        .openFile,
        .copyFile (filepathJoin "data/raw/videos" (env.freshID ++ ".mp4")),
        .setVideo env.freshID { filePath := filepathJoin "data/raw/videos" (env.freshID ++ ".mp4") },
        .setSceneName env.freshID req.sceneName,
        .setTrainingConfig env.freshID { nerfTrainingConfig :=
          { trainingMode := req.trainingMode
            outputTypes := req.outputTypes
            saveIterations := req.saveIterations
            totalIterations := req.totalIterations } },
        .publishSfmJob env.freshID { filePath := filepathJoin "data/raw/videos" (env.freshID ++ ".mp4") } { nerfTrainingConfig :=
          { trainingMode := req.trainingMode
            outputTypes := req.outputTypes
            saveIterations := req.saveIterations
            totalIterations := req.totalIterations } },
        .getUserByID userID,
        .updateUser (u.addScene env.freshID)])) ∧
    (∀ fi u, env.statResult = .ok fi → fi.name ≠ "" → goExt fi.name = ".mp4" →
      env.mkdirResult = .ok () → env.createResult = .ok () →
      env.openResult = .ok () → env.copyResult = .ok () →
      env.setVideoResult = .ok () → env.setSceneNameResult = .ok () →
      env.setTrainingConfigResult = .ok () → env.publishResult = .ok () →
      env.getUserResult = .ok u → env.updateUserResult = .ok () →
      HandleIncomingVideo env w userID req =
        (.ok env.freshID, ((((((w.withDir "data/raw/videos").withFile (filepathJoin "data/raw/videos" (env.freshID ++ ".mp4"))).withVideo env.freshID { filePath := filepathJoin "data/raw/videos" (env.freshID ++ ".mp4") }).withSceneName env.freshID req.sceneName).withTrainingConfig env.freshID
        { nerfTrainingConfig :=
          { trainingMode := req.trainingMode
            outputTypes := req.outputTypes
            saveIterations := req.saveIterations
            totalIterations := req.totalIterations } }).withQueued
        (env.freshID, { filePath := filepathJoin "data/raw/videos" (env.freshID ++ ".mp4") },
          { nerfTrainingConfig :=
          { trainingMode := req.trainingMode
            outputTypes := req.outputTypes
            saveIterations := req.saveIterations
            totalIterations := req.totalIterations } })).withUser (u.addScene env.freshID),
        [.statFile,
        .mkdirAll "data/raw/videos",
        .createFile (filepathJoin "data/raw/videos" (env.freshID ++ ".mp4")),
        .openFile,
        .copyFile (filepathJoin "data/raw/videos" (env.freshID ++ ".mp4")),
        .setVideo env.freshID { filePath := filepathJoin "data/raw/videos" (env.freshID ++ ".mp4") },
        .setSceneName env.freshID req.sceneName,
        .setTrainingConfig env.freshID { nerfTrainingConfig :=
          { trainingMode := req.trainingMode
            outputTypes := req.outputTypes
            saveIterations := req.saveIterations
            totalIterations := req.totalIterations } },
        .publishSfmJob env.freshID { filePath := filepathJoin "data/raw/videos" (env.freshID ++ ".mp4") } { nerfTrainingConfig :=
          { trainingMode := req.trainingMode
            outputTypes := req.outputTypes
            saveIterations := req.saveIterations
            totalIterations := req.totalIterations } },
        .getUserByID userID,
        .updateUser (u.addScene env.freshID)])) := by
  obtain ⟨c1, c2, c3, c4, c5, c6, c7, c8, c9, c10, c11, c12, c13, c14⟩ :=
    submit_cases env w userID req
  refine ⟨?_, c1, c2, c3, c4, c5, c6, c7, c8, c9, c10, c11, c12, c13, c14⟩
  rcases hs : env.statResult with e | fi
  · rw [c1 e hs]
    exact ⟨_, rfl⟩
  · by_cases h2 : fi.name = ""
    · rw [c2 fi hs h2]
      exact ⟨_, rfl⟩
    · by_cases h3 : goExt fi.name = ".mp4"
      · rcases hm : env.mkdirResult with e | ⟨⟩
        · rw [c4 fi e hs h2 h3 hm]
          exact ⟨_, rfl⟩
        · rcases hc : env.createResult with e | ⟨⟩
          · rw [c5 fi e hs h2 h3 hm hc]
            exact ⟨_, rfl⟩
          · rcases ho : env.openResult with e | ⟨⟩
            · rw [c6 fi e hs h2 h3 hm hc ho]
              exact ⟨_, rfl⟩
            · rcases hcp : env.copyResult with e | ⟨⟩
              · rw [c7 fi e hs h2 h3 hm hc ho hcp]
                exact ⟨_, rfl⟩
              · rcases hsv : env.setVideoResult with e | ⟨⟩
                · rw [c8 fi e hs h2 h3 hm hc ho hcp hsv]
                  exact ⟨_, rfl⟩
                · rcases hsn : env.setSceneNameResult with e | ⟨⟩
                  · rw [c9 fi e hs h2 h3 hm hc ho hcp hsv hsn]
                    exact ⟨_, rfl⟩
                  · rcases hstc : env.setTrainingConfigResult with e | ⟨⟩
                    · rw [c10 fi e hs h2 h3 hm hc ho hcp hsv hsn hstc]
                      exact ⟨_, rfl⟩
                    · rcases hp : env.publishResult with e | ⟨⟩
                      · rw [c11 fi e hs h2 h3 hm hc ho hcp hsv hsn hstc hp]
                        exact ⟨_, rfl⟩
                      · rcases hg : env.getUserResult with e | u
                        · rw [c12 fi e hs h2 h3 hm hc ho hcp hsv hsn hstc hp hg]
                          simp only [fullSubmitTrace, hg]
                          exact ⟨_, rfl⟩
                        · rcases hu : env.updateUserResult with e | ⟨⟩
                          · rw [c13 fi u e hs h2 h3 hm hc ho hcp hsv hsn hstc hp hg hu]
                            simp only [fullSubmitTrace, hg]
                            exact ⟨_, rfl⟩
                          · rw [c14 fi u hs h2 h3 hm hc ho hcp hsv hsn hstc hp hg hu]
                            simp only [fullSubmitTrace, hg]
                            exact ⟨_, rfl⟩
      · rw [c3 fi hs h2 h3]
        exact ⟨_, rfl⟩

/-- Claim C3 witness: concrete run in which `SetSceneName` fails — the
error is returned as-is, the trace stops there, and the stored file and
the `SetVideo` write remain in the world. -/
theorem C3_pipeline_order_failfast_no_rollback_witness :
    HandleIncomingVideo submitEnvSceneNameFail emptyWorld "u1" reqW =
      (.error (.external "db down"),
        ((emptyWorld.withDir "data/raw/videos").withFile
            (filepathJoin "data/raw/videos" (submitEnvSceneNameFail.freshID ++ ".mp4"))).withVideo
          submitEnvSceneNameFail.freshID
          { filePath := filepathJoin "data/raw/videos" (submitEnvSceneNameFail.freshID ++ ".mp4") },
        [.statFile,
          .mkdirAll "data/raw/videos",
          .createFile (filepathJoin "data/raw/videos" (submitEnvSceneNameFail.freshID ++ ".mp4")),
          .openFile,
          .copyFile (filepathJoin "data/raw/videos" (submitEnvSceneNameFail.freshID ++ ".mp4")),
          .setVideo submitEnvSceneNameFail.freshID
            { filePath := filepathJoin "data/raw/videos" (submitEnvSceneNameFail.freshID ++ ".mp4") },
          .setSceneName submitEnvSceneNameFail.freshID reqW.sceneName]) :=
  (C3_pipeline_order_failfast_no_rollback submitEnvSceneNameFail emptyWorld "u1"
      reqW).2.2.2.2.2.2.2.2.2.1
    ⟨"clip.mp4"⟩ (.external "db down") rfl (by decide) (by decide) rfl rfl rfl rfl rfl rfl

/-- Inversion for a successful submission: the returned identifier is the
freshly generated one, the trace contains the file-creation call on
`<videos-root>/<id>.mp4`, and that path is present in the final world. -/
theorem submit_ok_inv (env : SubmitEnv) (w : World) (userID : String)
    (req : VideoUploadRequest) (id : String)
    (h : (HandleIncomingVideo env w userID req).1 = .ok id) :
    id = env.freshID ∧
    Event.createFile (filepathJoin "data/raw/videos" (env.freshID ++ ".mp4"))
      ∈ (HandleIncomingVideo env w userID req).2.2 ∧
    filepathJoin "data/raw/videos" (env.freshID ++ ".mp4")
      ∈ (HandleIncomingVideo env w userID req).2.1.files := by
  obtain ⟨c1, c2, c3, c4, c5, c6, c7, c8, c9, c10, c11, c12, c13, c14⟩ :=
    submit_cases env w userID req
  rcases hs : env.statResult with e | fi
  · rw [c1 e hs] at h
    simp at h
  · by_cases h2 : fi.name = ""
    · rw [c2 fi hs h2] at h
      simp at h
    · by_cases h3 : goExt fi.name = ".mp4"
      · rcases hm : env.mkdirResult with e | ⟨⟩
        · rw [c4 fi e hs h2 h3 hm] at h
          simp at h
        · rcases hc : env.createResult with e | ⟨⟩
          · rw [c5 fi e hs h2 h3 hm hc] at h
            simp at h
          · rcases ho : env.openResult with e | ⟨⟩
            · rw [c6 fi e hs h2 h3 hm hc ho] at h
              simp at h
            · rcases hcp : env.copyResult with e | ⟨⟩
              · rw [c7 fi e hs h2 h3 hm hc ho hcp] at h
                simp at h
              · rcases hsv : env.setVideoResult with e | ⟨⟩
                · rw [c8 fi e hs h2 h3 hm hc ho hcp hsv] at h
                  simp at h
                · rcases hsn : env.setSceneNameResult with e | ⟨⟩
                  · rw [c9 fi e hs h2 h3 hm hc ho hcp hsv hsn] at h
                    simp at h
                  · rcases hstc : env.setTrainingConfigResult with e | ⟨⟩
                    · rw [c10 fi e hs h2 h3 hm hc ho hcp hsv hsn hstc] at h
                      simp at h
                    · rcases hp : env.publishResult with e | ⟨⟩
                      · rw [c11 fi e hs h2 h3 hm hc ho hcp hsv hsn hstc hp] at h
                        simp at h
                      · rcases hg : env.getUserResult with e | u
                        · rw [c12 fi e hs h2 h3 hm hc ho hcp hsv hsn hstc hp hg] at h
                          simp at h
                        · rcases hu : env.updateUserResult with e | ⟨⟩
                          · rw [c13 fi u e hs h2 h3 hm hc ho hcp hsv hsn hstc hp hg hu] at h
                            simp at h
                          · have hc14 := c14 fi u hs h2 h3 hm hc ho hcp hsv hsn hstc hp hg hu
                            rw [hc14] at h ⊢
                            refine ⟨?_, ?_, ?_⟩
                            · simpa using h.symm
                            · simp
                            · by_cases hPf : filepathJoin "data/raw/videos"
                                  (env.freshID ++ ".mp4") ∈ w.files
                              · simp [World.withUser, World.withQueued,
                                  World.withTrainingConfig, World.withSceneName,
                                  World.withVideo, World.withFile, World.withDir, hPf]
                              · simp [World.withUser, World.withQueued,
                                  World.withTrainingConfig, World.withSceneName,
                                  World.withVideo, World.withFile, World.withDir, hPf]
      · rw [c3 fi hs h2 h3] at h
        simp at h

/-- Claim C7: for every successful submission the returned job identifier
is the freshly generated one, it equals the stem of the stored video file
name `<id>.mp4` written under `data/raw/videos`, and identifiers from runs
with distinct generated identifiers are distinct. -/
theorem C7_jobid_unique_stem :
    (∀ env w userID req id,
      (HandleIncomingVideo env w userID req).1 = .ok id →
      (∀ c ∈ env.freshID.data, c ≠ '.' ∧ c ≠ '/') →
      id = env.freshID ∧
      fileStem (id ++ ".mp4") = id ∧
      Event.createFile (filepathJoin "data/raw/videos" (id ++ ".mp4"))
        ∈ (HandleIncomingVideo env w userID req).2.2 ∧
      filepathJoin "data/raw/videos" (id ++ ".mp4")
        ∈ (HandleIncomingVideo env w userID req).2.1.files) ∧
    (∀ env1 env2 w1 w2 uid1 uid2 req1 req2 id1 id2,
      (HandleIncomingVideo env1 w1 uid1 req1).1 = .ok id1 →
      (HandleIncomingVideo env2 w2 uid2 req2).1 = .ok id2 →
      env1.freshID ≠ env2.freshID → id1 ≠ id2) := by
  constructor
  · intro env w userID req id h hhex
    obtain ⟨hid, hev, hfile⟩ := submit_ok_inv env w userID req id h
    subst hid
    exact ⟨rfl, fileStem_append_mp4 _ hhex, hev, hfile⟩
  · intro env1 env2 w1 w2 uid1 uid2 req1 req2 id1 id2 h1 h2 hne
    obtain ⟨hid1, -, -⟩ := submit_ok_inv env1 w1 uid1 req1 id1 h1
    obtain ⟨hid2, -, -⟩ := submit_ok_inv env2 w2 uid2 req2 id2 h2
    rw [hid1, hid2]
    exact hne

/-- Claim C7 witness: one fully successful concrete run, plus a second run
with a distinct generated identifier. -/
theorem C7_jobid_unique_stem_witness :
    ("64bb0000000000000000bb02" : String) = submitEnvOk.freshID ∧
    fileStem ("64bb0000000000000000bb02" ++ ".mp4") = "64bb0000000000000000bb02" ∧
    Event.createFile (filepathJoin "data/raw/videos" ("64bb0000000000000000bb02" ++ ".mp4"))
      ∈ (HandleIncomingVideo submitEnvOk emptyWorld "u1" reqW).2.2 ∧
    filepathJoin "data/raw/videos" ("64bb0000000000000000bb02" ++ ".mp4")
      ∈ (HandleIncomingVideo submitEnvOk emptyWorld "u1" reqW).2.1.files ∧
    ("64bb0000000000000000bb02" : String) ≠ "64cc0000000000000000cc03" := by
  obtain ⟨ha, hb⟩ := C7_jobid_unique_stem
  have h1 : (HandleIncomingVideo submitEnvOk emptyWorld "u1" reqW).1 =
      .ok "64bb0000000000000000bb02" := rfl
  have h2 : (HandleIncomingVideo submitEnvOk2 emptyWorld "u1" reqW).1 =
      .ok "64cc0000000000000000cc03" := rfl
  have hx := ha submitEnvOk emptyWorld "u1" reqW "64bb0000000000000000bb02" h1 (by decide)
  exact ⟨hx.1, hx.2.1, hx.2.2.1, hx.2.2.2,
    hb submitEnvOk submitEnvOk2 emptyWorld emptyWorld "u1" "u1" reqW reqW
      "64bb0000000000000000bb02" "64cc0000000000000000cc03" h1 h2 (by decide)⟩
